import Mathlib

/-!
Verification development for the Solana Wallet Inspector CLI
(`src/sol_inspect.py`).  The Python source is shallowly embedded below:
JSON payloads become the inductive `JValue`, the network is an oracle
function from (endpoint, attempt index) to an outcome, and exceptions
become `Except String`.  Sleep durations are recorded as a list of
rationals instead of being performed.
-/

namespace SolInspect

/-- A parsed JSON value, as produced by `response.json()` in Python.
Numbers are restricted to integers, which covers every payload the
program reads (lamports, decimals, block times, raw token amounts). -/
inductive JValue where
  | null
  | bool (b : Bool)
  | int (n : Int)
  | str (s : String)
  | arr (xs : List JValue)
  | obj (fields : List (String × JValue))

namespace JValue

/-- Dictionary lookup, `d.get(k)`: `none` models Python `None`
(key absent).  A present `null` value is returned as `some .null`,
matching Python where `d.get(k)` would return `None` as well; callers
that distinguish absence from `null` do not occur in the source. -/
def get? : JValue → String → Option JValue
  | .obj fields, k => fields.lookup k
  | _, _ => none

/-- `k in d` (Python key membership on a dict). -/
def hasKey (v : JValue) (k : String) : Bool :=
  (v.get? k).isSome

/-- Python truthiness of a JSON value: `bool(x)`. -/
def truthy : JValue → Bool
  | .null => false
  | .bool b => b
  | .int n => n ≠ 0
  | .str s => s ≠ ""
  | .arr xs => !xs.isEmpty
  | .obj fields => !fields.isEmpty

mutual

/-- Python `repr` of a JSON-shaped value (used by `str` on containers).
Strings are rendered with single quotes (`\x27`), dicts with braces,
as CPython prints them. -/
def pyRepr : JValue → String
  | .null => "None"
  | .bool true => "True"
  | .bool false => "False"
  | .int n => toString n
  | .str s => "\x27" ++ s ++ "\x27"
  | .arr xs => "[" ++ String.intercalate ", " (pyReprList xs) ++ "]"
  | .obj fields => "\x7b" ++ String.intercalate ", " (pyReprFields fields) ++ "\x7d"

/-- `repr` of each element of a JSON array. -/
def pyReprList : List JValue → List String
  | [] => []
  | x :: xs => pyRepr x :: pyReprList xs

/-- `repr` of each `key: value` entry of a JSON object. -/
def pyReprFields : List (String × JValue) → List String
  | [] => []
  | (k, v) :: fs => ("\x27" ++ k ++ "\x27: " ++ pyRepr v) :: pyReprFields fs

end

/-- Python `str` of a JSON-shaped value: like `repr` except that a
top-level string is returned verbatim. -/
def pyStr : JValue → String
  | .str s => s
  | v => pyRepr v

/-- `type(x).__name__` for the values `response.json()` can return. -/
def pyTypeName : JValue → String
  | .null => "NoneType"
  | .bool _ => "bool"
  | .int _ => "int"
  | .str _ => "str"
  | .arr _ => "list"
  | .obj _ => "dict"

end JValue

/-- One HTTP response as seen by `RPCClient.request`:
`status` is `response.status_code`, `jsonBody` is the outcome of
`response.json()` (`none` when the body is not valid JSON and the call
raises `ValueError`), `text` is `response.text`. -/
structure HttpResponse where
  status : Nat
  jsonBody : Option JValue
  text : String

/-- What one call to `requests.post` does: either raise a transport
exception (whose `str` is `msg`) or deliver an HTTP response. -/
inductive TransportEvent where
  | exn (msg : String)
  | resp (r : HttpResponse)

/-- The body of the `try` block in `RPCClient.request`
(src/sol_inspect.py lines 135-154) for one attempt against `endpoint`:
classify the transport event as a successful result or a failure
reason (the `str` of the exception that was raised).
Mirrors, in order: a raised transport exception; the non-200 status
check; the `response.json()` `ValueError` check; `data.get("error")`
truthiness (an `AttributeError` when `data` is not a dict); the
`"result" not in data` check; and finally `return data["result"]`. -/
def attemptOutcome (endpoint : String) : TransportEvent → Except String JValue
  | .exn msg => .error msg
  | .resp r =>
    if r.status ≠ 200 then
      .error ("HTTP " ++ toString r.status ++ " from " ++ endpoint ++ ": " ++ r.text)
    else
      match r.jsonBody with
      | none => .error ("Invalid JSON from " ++ endpoint ++ ": " ++ r.text)
      | some data =>
        match data with
        | .obj fields =>
          let errVal := ((JValue.obj fields).get? "error").getD .null
          if errVal.truthy then
            .error ("RPC error from " ++ endpoint ++ ": " ++ errVal.pyStr)
          else
            match (JValue.obj fields).get? "result" with
            | some res => .ok res
            | none =>
              .error ("Malformed response from " ++ endpoint ++ ": " ++
                (JValue.obj fields).pyRepr)
        | other =>
          .error ("\x27" ++ other.pyTypeName ++ "\x27 object has no attribute \x27get\x27")

/-- `backoffs = [0.5, 1.0, 2.0]` (src/sol_inspect.py line 129),
as exact rationals. -/
def backoffs : List ℚ := [1/2, 1, 2]

/-- The inner `for attempt in range(len(backoffs) + 1)` loop of
`RPCClient.request` on one endpoint.  `out k` is the classified outcome
of attempt number `k`; `i` is the current attempt index and `fuel` the
number of attempts still allowed.  Returns the successful result if one
attempt succeeds, the list of backoff sleeps performed (in order), and
the last failure reason recorded in `last_error` (sleeps happen only
when `attempt < len(backoffs)`, i.e. never after the final attempt). -/
def attemptLoop (out : Nat → Except String JValue) : Nat → Nat →
    Option JValue × List ℚ × Option String
  | _, 0 => (none, [], none)
  | i, fuel + 1 =>
    match out i with
    | .ok v => (some v, [], none)
    | .error e =>
      let sleeps : List ℚ := match backoffs.get? i with
        | some b => [b]
        | none => []
      let rec_result := attemptLoop out (i + 1) fuel
      (rec_result.1, sleeps ++ rec_result.2.1, some ((rec_result.2.2).getD e))

/-- `f"{last_error}"`: Python renders the carried exception, or `None`
when no attempt was ever made. -/
def lastErrorStr : Option String → String
  | none => "None"
  | some e => e

/-- The outer `for endpoint in self.endpoints` loop of
`RPCClient.request`, threading `last_error` across endpoints.  Returns
the result (`.ok` for a `return`, `.error` for the final
`raise RPCError(f"All RPC endpoints failed: ...")`) together with the
ordered list of sleeps performed. -/
def requestGo (out : String → Nat → Except String JValue) :
    List String → Option String → Except String JValue × List ℚ
  | [], lastErr =>
    (.error ("All RPC endpoints failed: " ++ lastErrorStr lastErr), [])
  | ep :: rest, lastErr =>
    match attemptLoop (out ep) 0 (backoffs.length + 1) with
    | (some v, sleeps, _) => (.ok v, sleeps)
    | (none, sleeps, le) =>
      let tail := requestGo out rest (match le with | some e => some e | none => lastErr)
      (tail.1, sleeps ++ tail.2)

/-- The classified outcome of attempt `k` against endpoint `ep`: the
attempt's `try` body applied to what the transport does there. -/
def classifiedOutcome (transport : String → Nat → TransportEvent)
    (ep : String) (k : Nat) : Except String JValue :=
  attemptOutcome ep (transport ep k)

/-- `RPCClient.request` (src/sol_inspect.py lines 127-161) over a
transport oracle: `transport ep k` is what `requests.post` does on
attempt `k` against endpoint `ep`.  The JSON-RPC payload built from
`method`/`params` is the same on every attempt and does not influence
control flow, so it is absorbed into the oracle. -/
def request (transport : String → Nat → TransportEvent)
    (endpoints : List String) : Except String JValue × List ℚ :=
  requestGo (classifiedOutcome transport) endpoints none

/-! ## Base58 codec and address validator (src/sol_inspect.py lines 28-59) -/

def BASE58_ALPHABET : String :=
  "123456789ABCDEFGHJKLMNPQRSTUVWXYZabcdefghijkmnopqrstuvwxyz"

/-- The `for ch in value` accumulation loop of `base58_decode`:
`num = num * 58 + idx`, raising `ValueError` at the first character not
found in the alphabet (`BASE58_ALPHABET.find(ch) == -1`). -/
def b58Fold (num : Nat) : List Char → Except Char Nat
  | [] => .ok num
  | ch :: rest =>
    match BASE58_ALPHABET.toList.indexOf? ch with
    | none => .error ch
    | some idx => b58Fold (num * 58 + idx) rest

/-- Big-endian digit extraction with structural fuel: one byte is
produced per recursion step, and `n / 256 < n` for `n > 0`, so any
`fuel ≥ n` yields the full digit list. -/
def natToBytesBEFuel : Nat → Nat → List Nat
  | 0, _ => []
  | fuel + 1, n =>
    if n = 0 then [] else natToBytesBEFuel fuel (n / 256) ++ [n % 256]

/-- `num.to_bytes((num.bit_length() + 7) // 8, "big")` for `num > 0`,
and `b""` for `num == 0`: the minimal big-endian byte sequence of `num`
(the `(bit_length + 7) // 8` width is exactly the minimal width).
Stated with fuel `num`, which is sufficient since the value shrinks by
a factor of 256 each step. -/
def natToBytesBE (n : Nat) : List Nat :=
  natToBytesBEFuel n n

/-- `base58_decode` (src/sol_inspect.py lines 35-48).  Bytes are
modelled as `List Nat`; `.error` carries the `str` of the raised
`ValueError`. -/
def base58_decode (value : String) : Except String (List Nat) :=
  if value = "" then .error "empty base58 string"
  else
    match b58Fold 0 value.toList with
    | .error ch => .error ("invalid base58 character: " ++ ch.toString)
    | .ok num =>
      let combined := natToBytesBE num
      let pad := value.toList.length - (value.toList.dropWhile (· = '1')).length
      .ok (List.replicate pad 0 ++ combined)

/-- `validate_address` (src/sol_inspect.py lines 51-59).  `.ok ()` means
the function returns normally; `.error` carries the `str` of the raised
`ValueError`. -/
def validate_address (address : String) : Except String Unit :=
  match base58_decode address with
  | .error e => .error ("Invalid address: " ++ e)
  | .ok decoded =>
    if decoded.length ≠ 32 then
      .error ("Invalid address length: decoded to " ++ toString decoded.length ++
        " bytes, expected 32")
    else .ok ()

/-! ## Lamports display formatting (src/sol_inspect.py lines 62-68) -/

/-- Python `s.rstrip(c)` for a single-character strip set. -/
def rstripChar (c : Char) (s : String) : String :=
  ((s.toList.reverse.dropWhile (· = c)).reverse).asString

/-- Decimal digits of `m` left-padded with zeros to width `w`. -/
def padZeros (w : Nat) (m : Nat) : String :=
  let s := toString m
  ⟨List.replicate (w - s.length) '0'⟩ ++ s

/-- `format_sol(lamports_to_sol(n))` for a lamport count `n`
(src/sol_inspect.py lines 62-68).  `lamports_to_sol` divides by `10^9`
in binary floating point and `format_sol` renders the quotient with
`f"{sol:.9f}"`; for inputs whose quotient is exactly representable
(in particular every input appearing in the theorems below) that
rendering is the exact decimal expansion with nine fractional digits,
which is what is computed here, followed by the source's
`text.rstrip("0").rstrip(".") if "." in text else text`. -/
def formatSolLamports (n : Nat) : String :=
  let text := toString (n / 1000000000) ++ "." ++ padZeros 9 (n % 1000000000)
  if text.toList.contains '.' then rstripChar '.' (rstripChar '0' text) else text

/-! ## Block-time and error rendering (src/sol_inspect.py lines 71-83) -/

/-- The proleptic-Gregorian date `(year, month, day)` of the day that is
`z` days after 1970-01-01.  This is the civil-from-days computation that
`datetime.fromtimestamp(·, tz=timezone.utc)` performs; divisions are
floor divisions (`Int.ediv` = floor for positive divisors). -/
def civilFromDays (z : Int) : Int × Int × Int :=
  let z' := z + 719468
  let era := z'.ediv 146097
  let doe := z' - era * 146097
  let yoe := (doe - doe.ediv 1460 + doe.ediv 36524 - doe.ediv 146096).ediv 365
  let y := yoe + era * 400
  let doy := doe - (365 * yoe + yoe.ediv 4 - yoe.ediv 100)
  let mp := (5 * doy + 2).ediv 153
  let d := doy - (153 * mp + 2).ediv 5 + 1
  let m := mp + (if mp < 10 then 3 else -9)
  (y + (if m ≤ 2 then 1 else 0), m, d)

/-- Decimal digits of an integer left-padded with zeros to width `w`
(negative values keep their sign; they do not occur in the supported
`datetime` range). -/
def padZerosInt (w : Nat) (m : Int) : String :=
  if m < 0 then "-" ++ padZeros w m.natAbs else padZeros w m.toNat

/-- `datetime.fromtimestamp(t, tz=timezone.utc).isoformat()` for an
integer epoch second `t`: the calendar date from the day number and the
time of day from the remainder, rendered as
`YYYY-MM-DDTHH:MM:SS+00:00` (microseconds are zero for integer inputs,
so `isoformat` omits them). -/
def isoUtcOfEpoch (t : Int) : String :=
  let days := t.ediv 86400
  let sod := (t.emod 86400).toNat
  let ymd := civilFromDays days
  padZerosInt 4 ymd.1 ++ "-" ++ padZerosInt 2 ymd.2.1 ++ "-" ++ padZerosInt 2 ymd.2.2 ++
    "T" ++ padZeros 2 (sod / 3600) ++ ":" ++ padZeros 2 (sod % 3600 / 60) ++ ":" ++
    padZeros 2 (sod % 60) ++ "+00:00"

/-- `datetime.fromtimestamp(t, tz=timezone.utc)` validates the
computed calendar year against `datetime.MINYEAR = 1` and
`datetime.MAXYEAR = 9999` and raises
`ValueError(f"year {y} is out of range")` outside that range
(verified against CPython at the boundary epochs -62135596801 and
253402300800; for astronomically large magnitudes CPython raises a
platform-dependent `OSError` instead — still a failure, whose message
is not exercised by any theorem below).  In range, the conversion
succeeds with the ISO rendering. -/
def isoUtcOfEpochE (t : Int) : Except String String :=
  let y := (civilFromDays (t.ediv 86400)).1
  if y < 1 ∨ 9999 < y then
    .error ("year " ++ toString y ++ " is out of range")
  else
    .ok (isoUtcOfEpoch t)

/-- `_iso_time_from_blocktime` (src/sol_inspect.py lines 71-74):
`none` models a `null`/absent `blockTime`; `.error` models the
`ValueError` escaping from `datetime.fromtimestamp`. -/
def iso_time_from_blocktime : Option Int → Except String String
  | none => .ok "N/A"
  | some t => isoUtcOfEpochE t

/-- One lowercase hexadecimal digit for `n < 16`
(`'0'`-`'9'` then `'a'`-`'f'`). -/
def hexDigit (n : Nat) : Char :=
  if n < 10 then Char.ofNat (48 + n) else Char.ofNat (87 + n)

/-- Four lowercase hexadecimal digits, as in a `\uXXXX` escape. -/
def hex4 (n : Nat) : String :=
  ⟨[hexDigit (n / 4096 % 16), hexDigit (n / 256 % 16), hexDigit (n / 16 % 16),
    hexDigit (n % 16)]⟩

/-- JSON string escaping as `json.dumps` performs it (default
`ensure_ascii`): the two-character escapes for backslash, double
quote, backspace, form feed, newline, carriage return and tab;
`\uXXXX` for the remaining code points below `0x20` and at or above
`0x7f`; raw output for the printable ASCII range in between; and a
UTF-16 surrogate pair for code points beyond the basic multilingual
plane. -/
def jsonEscapeChar (c : Char) : String :=
  if c = '\\' then "\\\\"
  else if c = '"' then "\\\""
  else if c.toNat = 8 then "\\b"
  else if c.toNat = 12 then "\\f"
  else if c = '\n' then "\\n"
  else if c = '\r' then "\\r"
  else if c = '\t' then "\\t"
  else if c.toNat < 32 ∨ c.toNat ≥ 127 then
    if c.toNat < 65536 then "\\u" ++ hex4 c.toNat
    else
      "\\u" ++ hex4 (55296 + (c.toNat - 65536) / 1024) ++
        "\\u" ++ hex4 (56320 + (c.toNat - 65536) % 1024)
  else c.toString

/-- A JSON string literal as `json.dumps` renders it. -/
def jsonQuote (s : String) : String :=
  "\"" ++ String.join (s.toList.map jsonEscapeChar) ++ "\""

mutual

/-- `json.dumps(v, separators=(",", ":"))`: compact JSON serialization
with no whitespace after separators. -/
def jsonDumps : JValue → String
  | .null => "null"
  | .bool true => "true"
  | .bool false => "false"
  | .int n => toString n
  | .str s => jsonQuote s
  | .arr xs => "[" ++ String.intercalate "," (jsonDumpsList xs) ++ "]"
  | .obj fields => "\x7b" ++ String.intercalate "," (jsonDumpsFields fields) ++ "\x7d"

/-- Serialization of each element of a JSON array. -/
def jsonDumpsList : List JValue → List String
  | [] => []
  | x :: xs => jsonDumps x :: jsonDumpsList xs

/-- Serialization of each `key:value` entry of a JSON object. -/
def jsonDumpsFields : List (String × JValue) → List String
  | [] => []
  | (k, v) :: fs => (jsonQuote k ++ ":" ++ jsonDumps v) :: jsonDumpsFields fs

end

/-- `_err_summary` (src/sol_inspect.py lines 77-83): `none` models a
`null`/absent `err`.  Every `JValue` is JSON-serializable, so the
`except TypeError` fallback to `str(err)` is unreachable here. -/
def err_summary : Option JValue → String
  | none => ""
  | some v => jsonDumps v

/-! ## Signature decoding (src/sol_inspect.py lines 184-201) -/

/-- One entry of the `getSignaturesForAddress` result array, restricted
to the four fields `get_signatures` reads.  `none` models an absent key
or a JSON `null` (Python's `entry.get(k)` returns `None` for both). -/
structure SignatureEntry where
  signature : Option String
  blockTime : Option Int
  confirmationStatus : Option String
  err : Option JValue

/-- One transaction summary dict appended by `get_signatures`. -/
structure TxSummary where
  signature : Option String
  block_time : String
  confirmation_status : Option String
  err : String

/-- The dict built for one entry inside the `for entry in result` loop
of `get_signatures` (src/sol_inspect.py lines 192-200); `.error`
models the `ValueError` raised by the block-time conversion
propagating out of the loop body. -/
def summarizeEntry (e : SignatureEntry) : Except String TxSummary :=
  match iso_time_from_blocktime e.blockTime with
  | .error msg => .error msg
  | .ok bt =>
    .ok { signature := e.signature
          block_time := bt
          confirmation_status := e.confirmationStatus
          err := err_summary e.err }

/-- The decoding loop of `get_signatures`: one summary appended per
entry, in iteration order, aborting at the first entry whose
conversion raises (the surrounding `client.request` call is the RPC
model above; this is the decoding part). -/
def get_signatures_decode : List SignatureEntry → Except String (List TxSummary)
  | [] => .ok []
  | e :: rest =>
    match summarizeEntry e with
    | .error msg => .error msg
    | .ok s =>
      match get_signatures_decode rest with
      | .error msg => .error msg
      | .ok tail_sums => .ok (s :: tail_sums)

/-! ## Token-account decoding (src/sol_inspect.py lines 86-119) -/

/-- One element of the `getTokenAccountsByOwner` result's `value` array,
flattened to the six leaves `parse_token_accounts` reads.  In the
source the leaves are reached through
`item.get("account", {}).get("data", {}).get("parsed", {}).get("info", {})`
and `info.get("tokenAmount", {})`; an absent intermediate object makes
every leaf below it `None`, which the flattened form represents by all
those fields being `none`.  `pubkey`/`mint` are strings in the wire
format; `amount` is kept as a `JValue` so that `str(amount_raw)` is
modelled faithfully; `decimals` is a JSON integer on which the source's
`int(...)` is the identity. -/
structure TokenAccountItem where
  pubkey : Option String
  mint : Option String
  amount : Option JValue
  decimals : Option Int
  uiAmountString : Option String
  uiAmount : JValue

/-- One token-holding dict appended by `parse_token_accounts`. -/
structure TokenHolding where
  mint : String
  token_account : String
  amount_raw : String
  decimals : Int
  ui_amount : String

/-- Python truthiness of an optional string (`None` and `""` are
falsy). -/
def pyTruthyOptStr : Option String → Bool
  | none => false
  | some s => s ≠ ""

/-- `parse_token_accounts` (src/sol_inspect.py lines 86-119): skip the
item unless `pubkey and mint and amount_raw is not None and decimals is
not None`; otherwise append a holding with `amount_raw` stringified and
`ui_amount` falling back from `uiAmountString` to
`str(tokenAmount.get("uiAmount"))`. -/
def parse_token_accounts : List TokenAccountItem → List TokenHolding
  | [] => []
  | item :: rest =>
    let ui_amount : String :=
      match item.uiAmountString with
      | some s => s
      | none => item.uiAmount.pyStr
    if pyTruthyOptStr item.pubkey ∧ pyTruthyOptStr item.mint ∧
        item.amount.isSome ∧ item.decimals.isSome then
      { mint := item.mint.getD ""
        token_account := item.pubkey.getD ""
        amount_raw := (item.amount.getD .null).pyStr
        decimals := item.decimals.getD 0
        ui_amount := ui_amount } :: parse_token_accounts rest
    else
      parse_token_accounts rest

/-! ## Balance decoding (src/sol_inspect.py lines 164-166) -/

/-- Python `int(x)` on a JSON-shaped value: identity on integers,
`True`/`False` become `1`/`0`, decimal strings (with optional sign and
surrounding whitespace not modelled; plain sign-and-digits strings are)
are parsed, everything else raises. -/
def pyInt : JValue → Except String Int
  | .int n => .ok n
  | .bool true => .ok 1
  | .bool false => .ok 0
  | .str s =>
    if s ≠ "" ∧ s.toList.all (·.isDigit) then
      .ok (s.toList.foldl (fun acc c => acc * 10 + (c.toNat - 48)) 0)
    else if s.toList.head? = some '-' ∧ s.toList.tail ≠ [] ∧
        (s.toList.tail).all (·.isDigit) then
      .ok (-(s.toList.tail.foldl (fun acc c => acc * 10 + (c.toNat - 48)) 0 : Int))
    else
      .error ("invalid literal for int() with base 10: " ++ (JValue.str s).pyRepr)
  | v =>
    .error ("int() argument must be a string, a bytes-like object or a real number, not \x27" ++
      v.pyTypeName ++ "\x27")

/-- `get_balance`'s decoding step (src/sol_inspect.py line 166):
`int(result.get("value", 0))` applied to the raw `getBalance` result
payload.  A non-dict result raises `AttributeError` from
`result.get`, the same path `attemptOutcome` models for
`data.get("error")`; `.error` models the exception escaping to the
caller. -/
def get_balance_decode (result : JValue) : Except String Int :=
  match result with
  | .obj fields => pyInt (((JValue.obj fields).get? "value").getD (.int 0))
  | other =>
    .error ("'" ++ other.pyTypeName ++ "' object has no attribute 'get'")

/-! ## The query phase of `run` (src/sol_inspect.py lines 296-328) -/

/-- The three RPC-backed queries `run` can issue. -/
inductive QueryTag where
  | balanceQ
  | tokensQ
  | txsQ
deriving DecidableEq, Repr

/-- The `try` block of `run` (src/sol_inspect.py lines 308-321) plus the
report/exit-code decision: given the outcome of each query (each query's
`RPCError`/exception or value) and the `--no-tokens`/`--no-txs` flags,
returns the process exit code, the report passed to the printers
(`none` when no report is printed), and the ordered list of queries
actually issued.  Any exception from a query aborts the block: the
handler prints to stderr and returns exit code 1 without printing a
report. -/
def runQueryPhase (bal : Except String Int)
    (tok : Except String (List TokenHolding))
    (txs : Except String (List TxSummary))
    (noTokens noTxs : Bool) :
    Nat × Option (Int × List TokenHolding × List TxSummary) × List QueryTag :=
  match bal with
  | .error _ => (1, none, [.balanceQ])
  | .ok lam =>
    match noTokens, tok with
    | false, .error _ => (1, none, [.balanceQ, .tokensQ])
    | false, .ok tks =>
      match noTxs, txs with
      | false, .error _ => (1, none, [.balanceQ, .tokensQ, .txsQ])
      | false, .ok ts => (0, some (lam, tks, ts), [.balanceQ, .tokensQ, .txsQ])
      | true, _ => (0, some (lam, tks, []), [.balanceQ, .tokensQ])
    | true, _ =>
      match noTxs, txs with
      | false, .error _ => (1, none, [.balanceQ, .txsQ])
      | false, .ok ts => (0, some (lam, [], ts), [.balanceQ, .txsQ])
      | true, _ => (0, some (lam, [], []), [.balanceQ])

/-! ## Spec-side definitions, written from the specification's words,
for comparison with the source-derived functions above. -/

/-- The spec's description of the base58 numeric value: "treat `text`
as a big-endian base-58 number, accumulate via repeated multiply-add". -/
def b58SpecValue (cs : List Char) : Nat :=
  cs.foldl (fun acc c => acc * 58 + BASE58_ALPHABET.toList.indexOf c) 0

/-- The spec's description of the decoded bytes: "convert to the
minimal big-endian byte sequence, then re-prepend one zero byte for
every leading alphabet zero character in the input". -/
def b58SpecBytes (s : String) : List Nat :=
  List.replicate ((s.toList.takeWhile (· = '1')).length) 0 ++
    natToBytesBE (b58SpecValue s.toList)

/-- The amended C6 range condition: a present block time must land in
`datetime`'s supported years 1-9999 for the conversion to succeed. -/
def blockTimeInRange : Option Int → Bool
  | none => true
  | some t =>
    decide (1 ≤ (civilFromDays (t.ediv 86400)).1 ∧
      (civilFromDays (t.ediv 86400)).1 ≤ 9999)

/-- The spec's description of one transaction summary: block time is
the ISO-8601 UTC rendering of the epoch integer or the fixed `N/A`
sentinel when null/absent; the error summary is the compact
serialization of a present non-null error, else the empty string. -/
def specTxSummary (e : SignatureEntry) : TxSummary :=
  { signature := e.signature
    block_time := match e.blockTime with
      | none => "N/A"
      | some t => isoUtcOfEpoch t
    confirmation_status := e.confirmationStatus
    err := match e.err with
      | none => ""
      | some v => jsonDumps v }

/-- The (amended) spec's description of which token holding a record
produces: a holding exactly when the token-account address and mint are
present and non-empty and the raw amount and decimals are present
(non-null), with `amount_raw` the full-precision string of the raw
amount. -/
def specEmittedHolding (item : TokenAccountItem) : Option TokenHolding :=
  match item.pubkey, item.mint, item.amount, item.decimals with
  | some pk, some m, some a, some d =>
    if pk = "" ∨ m = "" then none
    else
      some { mint := m
             token_account := pk
             amount_raw := a.pyStr
             decimals := d
             ui_amount :=
               match item.uiAmountString with
               | some s => s
               | none => item.uiAmount.pyStr }
  | _, _, _, _ => none

/-! ## Theorems -/

/-- C9: the lamports-to-display conversion (division by the fixed
`10^9` divisor followed by stripping trailing zeros and a trailing
decimal point) maps `1_000_000_000` lamports to `"1"`,
`1_500_000_000` lamports to `"1.5"`, and `0` lamports to `"0"`. -/
theorem lamports_display_concrete :
    formatSolLamports 1000000000 = "1" ∧
    formatSolLamports 1500000000 = "1.5" ∧
    formatSolLamports 0 = "0" := by
  refine ⟨?_, ?_, ?_⟩ <;> rfl

/-- C10: with an empty endpoint list, `request` raises `RPCError`
immediately, for every possible transport behaviour (so no transport
attempt is consulted), and performs zero backoff sleeps. -/
theorem request_empty_endpoints (transport : String → Nat → TransportEvent) :
    request transport [] = (.error "All RPC endpoints failed: None", []) := rfl

/-- C3 counterexample: a 200 response whose payload carries the
present, non-null error value `0` together with a result field is
treated as a success returning the result, not as a failure — refuting
the claim that every non-null error value yields a failure. -/
theorem nonnull_falsy_error_treated_as_success :
    (JValue.obj [("error", .int 0), ("result", .int 7)]).get? "error" = some (.int 0) ∧
    JValue.int 0 ≠ JValue.null ∧
    attemptOutcome "https://node.example"
      (.resp ⟨200, some (.obj [("error", .int 0), ("result", .int 7)]), ""⟩) =
      .ok (.int 7) :=
  ⟨rfl, fun h => JValue.noConfusion h, rfl⟩

/-- C3 (amended): for a 200 response with a JSON-object payload, a
present and *truthy* error value makes the attempt fail with a reason
embedding the error content; when the error value is absent or falsy
(null, `0`, `false`, empty string/array/object), a missing result field
fails as a malformed response, and otherwise the attempt succeeds with
the result value. -/
theorem attempt_classification (ep text : String) (fields : List (String × JValue)) :
    (∀ e, (JValue.obj fields).get? "error" = some e → e.truthy = true →
      attemptOutcome ep (.resp ⟨200, some (.obj fields), text⟩) =
        .error ("RPC error from " ++ ep ++ ": " ++ e.pyStr)) ∧
    ((((JValue.obj fields).get? "error").getD .null).truthy = false →
      (JValue.obj fields).get? "result" = none →
      attemptOutcome ep (.resp ⟨200, some (.obj fields), text⟩) =
        .error ("Malformed response from " ++ ep ++ ": " ++ (JValue.obj fields).pyRepr)) ∧
    ((((JValue.obj fields).get? "error").getD .null).truthy = false →
      ∀ res, (JValue.obj fields).get? "result" = some res →
      attemptOutcome ep (.resp ⟨200, some (.obj fields), text⟩) = .ok res) := by
  refine ⟨?_, ?_, ?_⟩
  · intro e he ht
    simp [attemptOutcome, he, ht]
  · intro hf hr
    simp [attemptOutcome, hf, hr]
  · intro hf res hr
    simp [attemptOutcome, hf, hr]

/-- Witness for the amended C3 theorem at concrete inputs. -/
theorem attempt_classification_witness :
    attemptOutcome "E" (.resp ⟨200, some (.obj [("error", .int 3)]), ""⟩) =
      .error "RPC error from E: 3" ∧
    attemptOutcome "E" (.resp ⟨200, some (.obj [("error", .int 0)]), ""⟩) =
      .error "Malformed response from E: \x7b\x27error\x27: 0\x7d" ∧
    attemptOutcome "E" (.resp ⟨200, some (.obj [("result", .str "r")]), ""⟩) =
      .ok (.str "r") :=
  ⟨(attempt_classification "E" "" [("error", .int 3)]).1 (.int 3) rfl rfl,
   (attempt_classification "E" "" [("error", .int 0)]).2.1 rfl rfl,
   (attempt_classification "E" "" [("result", .str "r")]).2.2 rfl (.str "r") rfl⟩

/-- C7 counterexample: a present negative `value` field in a
`getBalance` result payload is returned unchanged by the balance
decoder, refuting the claim that it raises a caller-visible decode
error. -/
theorem balance_negative_value_returned :
    get_balance_decode (.obj [("value", .int (-5))]) = .ok (-5) ∧ (-5 : Int) < 0 :=
  ⟨rfl, by decide⟩

/-- C7 (amended): on a JSON-object `getBalance` result payload the
balance decoder returns `0` when the `value` field is missing; a
present integer value — negative included — is returned unchanged by
`int()` (no error, no clamping); a present value on which `int()`
fails (JSON `null`, a non-numeric string, a container) raises that
error to the caller; and a non-object result payload raises
`AttributeError` from `result.get`. -/
theorem get_balance_decode_spec (fields : List (String × JValue)) :
    ((JValue.obj fields).get? "value" = none →
      get_balance_decode (.obj fields) = .ok 0) ∧
    (∀ n : Int, (JValue.obj fields).get? "value" = some (.int n) →
      get_balance_decode (.obj fields) = .ok n) ∧
    (∀ v msg, (JValue.obj fields).get? "value" = some v → pyInt v = .error msg →
      get_balance_decode (.obj fields) = .error msg) ∧
    (∀ xs : List JValue, get_balance_decode (.arr xs) =
      .error "\x27list\x27 object has no attribute \x27get\x27") := by
  refine ⟨?_, ?_, ?_, fun xs => rfl⟩
  · intro h
    simp [get_balance_decode, h, pyInt]
  · intro n h
    simp [get_balance_decode, h, pyInt]
  · intro v msg h hm
    simp [get_balance_decode, h, hm]

/-- Witness for the amended C7 theorem at concrete inputs: missing
field, negative integer, JSON null, non-numeric string, and a
non-object (list) payload. -/
theorem get_balance_decode_spec_witness :
    get_balance_decode (.obj [("other", .int 9)]) = .ok 0 ∧
    get_balance_decode (.obj [("value", .int (-7))]) = .ok (-7) ∧
    get_balance_decode (.obj [("value", .null)]) =
      .error "int() argument must be a string, a bytes-like object or a real number, not \x27NoneType\x27" ∧
    get_balance_decode (.obj [("value", .str "4x2")]) =
      .error "invalid literal for int() with base 10: \x274x2\x27" ∧
    get_balance_decode (.arr []) =
      .error "\x27list\x27 object has no attribute \x27get\x27" :=
  ⟨(get_balance_decode_spec [("other", .int 9)]).1 rfl,
   (get_balance_decode_spec [("value", .int (-7))]).2.1 (-7) rfl,
   (get_balance_decode_spec [("value", .null)]).2.2.1 .null
      "int() argument must be a string, a bytes-like object or a real number, not \x27NoneType\x27"
      rfl rfl,
   (get_balance_decode_spec [("value", .str "4x2")]).2.2.1 (.str "4x2")
      "invalid literal for int() with base 10: \x274x2\x27" rfl rfl,
   (get_balance_decode_spec []).2.2.2 []⟩

/-- C5 counterexample: a record whose four required fields are all
present, but whose token-account address is the empty string, is
dropped by the token decoder — refuting the claim that presence of the
four fields alone guarantees emission. -/
theorem token_record_all_present_but_dropped :
    parse_token_accounts
      [⟨some "", some "Mint1", some (.str "5"), some 2, none, .null⟩] = [] ∧
    (some "" : Option String).isSome = true ∧
    (some "Mint1" : Option String).isSome = true ∧
    (some (JValue.str "5") : Option JValue).isSome = true ∧
    (some (2 : Int) : Option Int).isSome = true :=
  ⟨rfl, rfl, rfl, rfl, rfl⟩

/-- C5 (amended): the token decoder emits one holding per record
exactly when the token-account address and mint are present and
non-empty (Python truthiness) and the raw amount and decimals are
present; such records are emitted in input order, all others are
silently dropped, and `amount_raw` is the full-precision string of the
raw amount — stated as equality with the spec-side `filterMap`. -/
theorem parse_token_accounts_spec (items : List TokenAccountItem) :
    parse_token_accounts items = items.filterMap specEmittedHolding := by
  induction items with
  | nil => rfl
  | cons item rest ih =>
    rcases item with ⟨pk, m, a, d, uis, uia⟩
    rcases pk with _ | pk <;> rcases m with _ | m <;>
      rcases a with _ | a <;> rcases d with _ | d <;>
      simp [parse_token_accounts, List.filterMap_cons, specEmittedHolding,
        pyTruthyOptStr, ih]
    all_goals by_cases hpk : pk = "" <;> by_cases hm : m = "" <;>
      simp [hpk, hm, ih]

/-- C6 counterexample: a record whose `blockTime` is the first epoch
second of year 10000 makes the signature decoder raise `ValueError`
(verified against CPython) instead of producing one summary for the
record — refuting the claim for arbitrary integer block times. -/
theorem blocktime_out_of_range_aborts :
    get_signatures_decode [⟨some "s", some 253402300800, none, none⟩] =
      .error "year 10000 is out of range" := rfl

/-- In-range entries summarize successfully to the spec-side summary. -/
theorem summarizeEntry_ok (e : SignatureEntry)
    (he : blockTimeInRange e.blockTime = true) :
    summarizeEntry e = .ok (specTxSummary e) := by
  cases hbt : e.blockTime with
  | none =>
    simp only [summarizeEntry, iso_time_from_blocktime, specTxSummary, hbt]
    cases e.err <;> rfl
  | some t =>
    rw [hbt] at he
    simp only [blockTimeInRange, decide_eq_true_eq] at he
    simp only [summarizeEntry, iso_time_from_blocktime, isoUtcOfEpochE, specTxSummary, hbt,
      if_neg (show ¬((civilFromDays (t.ediv 86400)).1 < 1 ∨
        9999 < (civilFromDays (t.ediv 86400)).1) by omega)]
    cases e.err <;> rfl

/-- C6 (amended): for every input sequence of signature records whose
present block times lie in `datetime`'s supported range (years
1-9999), the decoder succeeds and produces exactly one transaction
summary per record, in input order, dropping and deduplicating
nothing, with the block time rendered from the epoch integer (or the
`N/A` sentinel when null/absent) and the error summarized compactly
(or empty when null/absent); an out-of-range block time instead raises
`ValueError`, aborting the decode. -/
theorem get_signatures_decode_spec (entries : List SignatureEntry)
    (hrange : ∀ e ∈ entries, blockTimeInRange e.blockTime = true) :
    ∃ summaries, get_signatures_decode entries = .ok summaries ∧
      summaries.length = entries.length ∧
      ∀ i : Nat, summaries.get? i = (entries.get? i).map specTxSummary := by
  induction entries with
  | nil => exact ⟨[], rfl, rfl, fun i => by cases i <;> rfl⟩
  | cons e rest ih =>
    obtain ⟨ss, hss, hlen, hget⟩ :=
      ih (fun x hx => hrange x (List.mem_cons_of_mem e hx))
    have hsum := summarizeEntry_ok e (hrange e (List.mem_cons_self e rest))
    refine ⟨specTxSummary e :: ss, ?_, ?_, ?_⟩
    · simp [get_signatures_decode, hsum, hss]
    · simp [hlen]
    · intro i
      cases i with
      | zero => rfl
      | succ n => simpa using hget n

/-- Witness for the amended C6 theorem at concrete records: one full
record with an in-range block time and error object, and one record
with every field null/absent. -/
theorem get_signatures_decode_spec_witness :
    ∃ summaries,
      get_signatures_decode
        [⟨some "sig1", some 1700000000, some "finalized",
          some (.obj [("InstructionError", .arr [.int 0, .str "Custom"])])⟩,
         ⟨none, none, none, none⟩] = .ok summaries ∧
      summaries.length =
        ([⟨some "sig1", some 1700000000, some "finalized",
          some (.obj [("InstructionError", .arr [.int 0, .str "Custom"])])⟩,
         ⟨none, none, none, none⟩] : List SignatureEntry).length ∧
      ∀ i : Nat, summaries.get? i =
        (([⟨some "sig1", some 1700000000, some "finalized",
          some (.obj [("InstructionError", .arr [.int 0, .str "Custom"])])⟩,
         ⟨none, none, none, none⟩] : List SignatureEntry).get? i).map specTxSummary :=
  get_signatures_decode_spec _ (by decide)

/-- C8: when the balance query fails, `run`'s query phase aborts with
exit code 1, prints no report, and never issues the token-accounts or
signatures queries; and when a later token or transaction query fails
after the balance query succeeded, the run still aborts with exit code
1 and no partial report. -/
theorem run_query_phase_abort (bal : Except String Int)
    (tok : Except String (List TokenHolding)) (txs : Except String (List TxSummary))
    (noTokens noTxs : Bool) :
    (∀ e, bal = .error e →
      runQueryPhase bal tok txs noTokens noTxs = (1, none, [.balanceQ])) ∧
    (∀ lam e, bal = .ok lam → noTokens = false → tok = .error e →
      runQueryPhase bal tok txs noTokens noTxs = (1, none, [.balanceQ, .tokensQ])) ∧
    (∀ lam tks e, bal = .ok lam → noTokens = false → tok = .ok tks →
      noTxs = false → txs = .error e →
      runQueryPhase bal tok txs noTokens noTxs = (1, none, [.balanceQ, .tokensQ, .txsQ])) ∧
    (∀ lam e, bal = .ok lam → noTokens = true → noTxs = false → txs = .error e →
      runQueryPhase bal tok txs noTokens noTxs = (1, none, [.balanceQ, .txsQ])) := by
  refine ⟨?_, ?_, ?_, ?_⟩
  · rintro e rfl
    rfl
  · rintro lam e rfl rfl rfl
    rfl
  · rintro lam tks e rfl rfl rfl rfl rfl
    rfl
  · rintro lam e rfl rfl rfl rfl
    rfl

/-- Witness for the C8 theorem at concrete query outcomes. -/
theorem run_query_phase_abort_witness :
    runQueryPhase (.error "rpc down") (.ok []) (.ok []) false false =
      (1, none, [.balanceQ]) ∧
    runQueryPhase (.ok 3) (.error "rpc down") (.ok []) false false =
      (1, none, [.balanceQ, .tokensQ]) ∧
    runQueryPhase (.ok 3) (.ok []) (.error "rpc down") false false =
      (1, none, [.balanceQ, .tokensQ, .txsQ]) :=
  ⟨(run_query_phase_abort (.error "rpc down") (.ok []) (.ok []) false false).1
      "rpc down" rfl,
   (run_query_phase_abort (.ok 3) (.error "rpc down") (.ok []) false false).2.1
      3 "rpc down" rfl rfl rfl,
   (run_query_phase_abort (.ok 3) (.ok []) (.error "rpc down") false false).2.2.1
      3 [] "rpc down" rfl rfl rfl rfl rfl⟩

/-- If all four attempts on an endpoint fail, the attempt loop performs
exactly the three backoff sleeps (none after the final attempt) and
records the final attempt's failure as the last error. -/
theorem attemptLoop_exhaust (out : Nat → Except String JValue) (e0 e1 e2 e3 : String)
    (h0 : out 0 = .error e0) (h1 : out 1 = .error e1)
    (h2 : out 2 = .error e2) (h3 : out 3 = .error e3) :
    attemptLoop out 0 (backoffs.length + 1) = (none, backoffs, some e3) := by
  simp [attemptLoop, backoffs, h0, h1, h2, h3]

/-- If the first `N` attempts on an endpoint fail and attempt `N`
succeeds (`N ≤ 3`), the attempt loop returns that success having slept
exactly the first `N` backoffs, in order. -/
theorem attemptLoop_succ_after (out : Nat → Except String JValue) (N : Nat) (v : JValue)
    (hN : N ≤ 3) (hf : ∀ k, k < N → ∃ e, out k = .error e) (hs : out N = .ok v) :
    ∃ le, attemptLoop out 0 (backoffs.length + 1) = (some v, backoffs.take N, le) := by
  interval_cases N
  · exact ⟨none, by simp [attemptLoop, backoffs, hs]⟩
  · obtain ⟨e0, h0⟩ := hf 0 (by omega)
    exact ⟨some e0, by simp [attemptLoop, backoffs, h0, hs]⟩
  · obtain ⟨e0, h0⟩ := hf 0 (by omega)
    obtain ⟨e1, h1⟩ := hf 1 (by omega)
    exact ⟨some e1, by simp [attemptLoop, backoffs, h0, h1, hs]⟩
  · obtain ⟨e0, h0⟩ := hf 0 (by omega)
    obtain ⟨e1, h1⟩ := hf 1 (by omega)
    obtain ⟨e2, h2⟩ := hf 2 (by omega)
    exact ⟨some e2, by simp [attemptLoop, backoffs, h0, h1, h2, hs]⟩

/-- Unfolding `requestGo` on the first endpoint when some attempt
there succeeds: the success is returned with that endpoint's sleeps and
no further endpoint is consulted. -/
theorem requestGo_cons_success (out : String → Nat → Except String JValue)
    (ep : String) (rest : List String) (le : Option String) (v : JValue)
    (sleeps : List ℚ) (le' : Option String)
    (hloop : attemptLoop (out ep) 0 (backoffs.length + 1) = (some v, sleeps, le')) :
    requestGo out (ep :: rest) le = (.ok v, sleeps) := by
  conv_lhs => rw [requestGo]
  rw [hloop]

/-- Unfolding `requestGo` on the first endpoint when all four attempts
there fail: the loop moves on to the remaining endpoints carrying the
endpoint's last failure, with that endpoint's three sleeps prepended. -/
theorem requestGo_cons_exhaust (out : String → Nat → Except String JValue)
    (ep : String) (rest : List String) (le : Option String) (e3 : String)
    (hloop : attemptLoop (out ep) 0 (backoffs.length + 1) = (none, backoffs, some e3)) :
    requestGo out (ep :: rest) le =
      ((requestGo out rest (some e3)).1, backoffs ++ (requestGo out rest (some e3)).2) := by
  conv_lhs => rw [requestGo]
  rw [hloop]

/-- C1: `request` tries endpoints in list order with at most four
transport attempts per endpoint.  First conjunct: if the first `N ≤ 3`
attempts on the first endpoint fail and attempt `N` succeeds, `request`
returns that result immediately (no later endpoint is consulted) having
performed exactly the sleeps `0.5, 1.0, 2.0` truncated to the first
`N`, applied only between attempts.  Second conjunct: if all four
attempts on the first endpoint fail, `request` performs exactly the
three backoff sleeps there, then moves to the remaining endpoints with
no sleep in between, carrying the final attempt's failure as the last
error. -/
theorem request_retry_and_failover (transport : String → Nat → TransportEvent)
    (ep : String) (rest : List String) :
    (∀ (N : Nat) (v : JValue), N ≤ 3 →
      (∀ k, k < N → ∃ e, classifiedOutcome transport ep k = .error e) →
      classifiedOutcome transport ep N = .ok v →
      request transport (ep :: rest) = (.ok v, backoffs.take N)) ∧
    (∀ e3, (∀ k, k < 3 → ∃ e, classifiedOutcome transport ep k = .error e) →
      classifiedOutcome transport ep 3 = .error e3 →
      request transport (ep :: rest) =
        ((requestGo (classifiedOutcome transport) rest (some e3)).1,
          backoffs ++ (requestGo (classifiedOutcome transport) rest (some e3)).2)) := by
  constructor
  · intro N v hN hf hs
    obtain ⟨le, hloop⟩ := attemptLoop_succ_after _ N v hN hf hs
    exact requestGo_cons_success _ ep rest none v (backoffs.take N) le hloop
  · intro e3 hf h3
    obtain ⟨e0, h0⟩ := hf 0 (by omega)
    obtain ⟨e1, h1⟩ := hf 1 (by omega)
    obtain ⟨e2, h2⟩ := hf 2 (by omega)
    have hloop := attemptLoop_exhaust _ e0 e1 e2 e3 h0 h1 h2 h3
    exact requestGo_cons_exhaust _ ep rest none e3 hloop

/-- Witness for the C1 theorem: one transport failure then a success on
a single endpoint yields the success after exactly one 0.5s sleep, and
an endpoint whose four attempts all fail hands over to the next
endpoint after exactly the three backoff sleeps. -/
theorem request_retry_and_failover_witness :
    request (fun _ k => if k = 0 then .exn "t0"
      else .resp ⟨200, some (.obj [("result", .int 5)]), ""⟩) ["ep"] =
      (.ok (.int 5), backoffs.take 1) ∧
    request (fun _ _ => .exn "boom") ["a", "b"] =
      ((requestGo (classifiedOutcome (fun _ _ => .exn "boom")) ["b"] (some "boom")).1,
        backoffs ++ (requestGo (classifiedOutcome (fun _ _ => .exn "boom")) ["b"] (some "boom")).2) :=
  ⟨(request_retry_and_failover _ "ep" []).1 1 (.int 5) (by omega)
      (fun k hk => ⟨"t0", by
        have hk0 : k = 0 := by omega
        subst hk0
        rfl⟩) rfl,
   (request_retry_and_failover _ "a" ["b"]).2 "boom"
      (fun k _ => ⟨"boom", rfl⟩) rfl⟩

/-- When every attempt on every endpoint of a nonempty list fails, the
endpoint loop raises `RPCError` whose message embeds the failure reason
of the final attempt on the final endpoint. -/
theorem requestGo_all_fail (out : String → Nat → Except String JValue)
    (f : String → Nat → String) (eps : List String) :
    ∀ (hne : eps ≠ []) (le : Option String),
    (∀ ep ∈ eps, ∀ k, k ≤ 3 → out ep k = .error (f ep k)) →
    (requestGo out eps le).1 =
      .error ("All RPC endpoints failed: " ++ f (eps.getLast hne) 3) := by
  induction eps with
  | nil => intro hne; exact absurd rfl hne
  | cons ep rest ih =>
    intro hne le hf
    have h0 := hf ep (by simp) 0 (by omega)
    have h1 := hf ep (by simp) 1 (by omega)
    have h2 := hf ep (by simp) 2 (by omega)
    have h3 := hf ep (by simp) 3 (by omega)
    have hloop := attemptLoop_exhaust (out ep) _ _ _ _ h0 h1 h2 h3
    cases rest with
    | nil => simp [requestGo, hloop, lastErrorStr, List.getLast]
    | cons r rs =>
      have htail := ih (by simp) (some (f ep 3))
        (fun p hp k hk => hf p (List.mem_cons_of_mem ep hp) k hk)
      rw [requestGo_cons_exhaust out ep (r :: rs) le (f ep 3) hloop]
      rw [List.getLast_cons]
      exact htail

/-- C2: if every attempt on every configured endpoint fails, `request`
raises `RPCError` and its message contains the reason of the last
observed failure — the failure of the final (fourth) attempt on the
final endpoint. -/
theorem request_all_endpoints_fail (transport : String → Nat → TransportEvent)
    (eps : List String) (hne : eps ≠ []) (f : String → Nat → String)
    (hf : ∀ ep ∈ eps, ∀ k, k ≤ 3 → classifiedOutcome transport ep k = .error (f ep k)) :
    (request transport eps).1 =
      .error ("All RPC endpoints failed: " ++ f (eps.getLast hne) 3) :=
  requestGo_all_fail (classifiedOutcome transport) f eps hne none hf

/-- Witness for the C2 theorem: two endpoints whose every attempt
raises a transport error ending in the attempt number fail with the
last endpoint's last attempt reason embedded. -/
theorem request_all_endpoints_fail_witness :
    (request (fun ep k => .exn (ep ++ toString k)) ["a", "b"]).1 =
      .error "All RPC endpoints failed: b3" :=
  request_all_endpoints_fail _ ["a", "b"] (by simp)
    (fun ep k => ep ++ toString k) (fun ep _ k _ => rfl)

/-- A character that occurs in a list is found by `indexOf?` at its
`indexOf` position. -/
theorem indexOf?_of_mem (l : List Char) (c : Char) (h : c ∈ l) :
    l.indexOf? c = some (l.indexOf c) := by
  cases hio : l.indexOf? c with
  | none =>
    rw [List.indexOf?_eq_none_iff] at hio
    exact absurd (by simp) (hio c h)
  | some i => rw [List.indexOf_eq_indexOf?, hio]

/-- `indexOf?` succeeding implies membership. -/
theorem mem_of_indexOf?_eq_some (l : List Char) (c : Char) (i : Nat)
    (h : l.indexOf? c = some i) : c ∈ l := by
  by_contra hmem
  have : l.indexOf? c = none := by
    rw [List.indexOf?_eq_none_iff]
    intro x hx hbeq
    exact hmem (by simpa using (eq_of_beq hbeq) ▸ hx)
  simp [this] at h

/-- If the base58 accumulation loop returns a number, every input
character is in the alphabet and the number is the big-endian base-58
value accumulated by repeated multiply-add. -/
theorem b58Fold_ok_inv (cs : List Char) : ∀ acc num, b58Fold acc cs = .ok num →
    (∀ c ∈ cs, c ∈ BASE58_ALPHABET.toList) ∧
    num = cs.foldl (fun a c => a * 58 + BASE58_ALPHABET.toList.indexOf c) acc := by
  induction cs with
  | nil =>
    intro acc num h
    exact ⟨by simp, by simpa [b58Fold] using h.symm⟩
  | cons c cs ih =>
    intro acc num h
    rw [b58Fold] at h
    cases hio : BASE58_ALPHABET.toList.indexOf? c with
    | none => rw [hio] at h; exact absurd h (by simp)
    | some idx =>
      rw [hio] at h
      obtain ⟨hvalid, hnum⟩ := ih _ _ h
      have hmem := mem_of_indexOf?_eq_some _ _ _ hio
      have hidx : idx = BASE58_ALPHABET.toList.indexOf c := by
        have := indexOf?_of_mem _ _ hmem
        rw [hio] at this
        exact (Option.some.inj this)
      refine ⟨?_, ?_⟩
      · intro x hx
        rcases List.mem_cons.mp hx with hx | hx
        · exact hx ▸ hmem
        · exact hvalid x hx
      · simpa [hidx] using hnum

/-- If every input character is in the alphabet, the base58
accumulation loop succeeds with the accumulated base-58 value. -/
theorem b58Fold_ok_of_valid (cs : List Char) :
    ∀ acc, (∀ c ∈ cs, c ∈ BASE58_ALPHABET.toList) →
    b58Fold acc cs =
      .ok (cs.foldl (fun a c => a * 58 + BASE58_ALPHABET.toList.indexOf c) acc) := by
  induction cs with
  | nil => intro acc _; rfl
  | cons c cs ih =>
    intro acc hv
    rw [b58Fold, indexOf?_of_mem _ _ (hv c (List.mem_cons_self c cs))]
    simpa using ih _ (fun x hx => hv x (List.mem_cons_of_mem c hx))

/-- The leading-`'1'` count computed by the source's
`len(value) - len(value.lstrip("1"))` equals the `takeWhile` length
used by the spec-side byte description. -/
theorem pad_eq_takeWhile (cs : List Char) :
    cs.length - (cs.dropWhile (· = '1')).length = (cs.takeWhile (· = '1')).length := by
  have h := congrArg List.length (List.takeWhile_append_dropWhile (p := (· = '1')) (l := cs))
  rw [List.length_append] at h
  omega

/-- `base58_decode` succeeds on non-empty all-alphabet input with
exactly the bytes the spec describes. -/
theorem base58_decode_eq_spec (s : String) (h1 : s ≠ "")
    (h2 : ∀ c ∈ s.toList, c ∈ BASE58_ALPHABET.toList) :
    base58_decode s = .ok (b58SpecBytes s) := by
  rw [base58_decode, if_neg h1, b58Fold_ok_of_valid s.toList 0 h2]
  rw [b58SpecBytes, b58SpecValue, pad_eq_takeWhile]

/-- Inversion: a successful `base58_decode` implies non-empty
all-alphabet input and spec-described bytes. -/
theorem base58_decode_ok_inv (s : String) (bs : List Nat)
    (h : base58_decode s = .ok bs) :
    s ≠ "" ∧ (∀ c ∈ s.toList, c ∈ BASE58_ALPHABET.toList) ∧ bs = b58SpecBytes s := by
  rw [base58_decode] at h
  by_cases h1 : s = ""
  · rw [if_pos h1] at h; exact absurd h (by simp)
  · rw [if_neg h1] at h
    cases hfold : b58Fold 0 s.toList with
    | error ch => rw [hfold] at h; exact absurd h (by simp)
    | ok num =>
      rw [hfold] at h
      obtain ⟨hvalid, hnum⟩ := b58Fold_ok_inv s.toList 0 num hfold
      refine ⟨h1, hvalid, ?_⟩
      have hbs := Option.some.inj (congrArg Except.toOption h)
      rw [← hbs, b58SpecBytes, b58SpecValue, ← hnum, pad_eq_takeWhile]

/-- Appending preserves an `"Invalid address"` character prefix. -/
theorem invalid_prefix_append (pre suf : String)
    (h : "Invalid address".toList <+: pre.toList) :
    "Invalid address".toList <+: (pre ++ suf).toList := by
  have : (pre ++ suf).toList = pre.toList ++ suf.toList := by
    simp [String.toList]
  rw [this]
  exact h.trans (List.prefix_append _ _)

/-- C4: `validate_address` succeeds exactly on inputs that are
non-empty, drawn entirely from the 58-symbol base58 alphabet, and whose
base58 decoding — the big-endian base-58 value's minimal big-endian
bytes, prefixed with one zero byte per leading `'1'` — is exactly 32
bytes; every other input fails with an invalid-address error (the
raised message starts with `"Invalid address"`).  First, a helper:
`validate_address` succeeds exactly when the decoded byte count is 32,
once decoding itself succeeds. -/
theorem validate_ok_iff_len (s : String) (decoded : List Nat)
    (hdec : base58_decode s = .ok decoded) :
    validate_address s = .ok () ↔ decoded.length = 32 := by
  rw [validate_address, hdec]
  by_cases hlen : decoded.length = 32 <;> simp [hlen]

/-- C4: `validate_address` succeeds exactly on inputs that are
non-empty, drawn entirely from the 58-symbol base58 alphabet, and whose
base58 decoding — the big-endian base-58 value's minimal big-endian
bytes, prefixed with one zero byte per leading `'1'` — is exactly 32
bytes; every other input fails with an invalid-address error (the
raised message starts with `"Invalid address"`). -/
theorem validate_address_spec (s : String) :
    (validate_address s = .ok () ↔
      s ≠ "" ∧ (∀ c ∈ s.toList, c ∈ BASE58_ALPHABET.toList) ∧
        (b58SpecBytes s).length = 32) ∧
    (∀ msg, validate_address s = .error msg →
      "Invalid address".toList <+: msg.toList) := by
  constructor
  · constructor
    · intro h
      cases hdec : base58_decode s with
      | error e =>
        rw [validate_address, hdec] at h
        exact absurd h (by simp)
      | ok decoded =>
        obtain ⟨h1, h2, h3⟩ := base58_decode_ok_inv s decoded hdec
        have hlen := (validate_ok_iff_len s decoded hdec).mp h
        exact ⟨h1, h2, h3 ▸ hlen⟩
    · rintro ⟨h1, h2, h3⟩
      exact (validate_ok_iff_len s _ (base58_decode_eq_spec s h1 h2)).mpr h3
  · intro msg h
    rw [validate_address] at h
    cases hdec : base58_decode s with
    | error e =>
      rw [hdec] at h
      simp only [Except.error.injEq] at h
      rw [← h]
      exact invalid_prefix_append _ _ ⟨": ".toList, rfl⟩
    | ok decoded =>
      rw [hdec] at h
      simp only [] at h
      split at h
      · simp only [Except.error.injEq] at h
        rw [← h]
        exact invalid_prefix_append _ _
          (invalid_prefix_append _ _ ⟨" length: decoded to ".toList, rfl⟩)
      · exact absurd h (by simp)

/-- Witness for the C4 theorem: the system-program address of 32 `'1'`
characters validates, and a one-character address fails with an
invalid-address error. -/
theorem validate_address_spec_witness :
    validate_address "11111111111111111111111111111111" = .ok () ∧
    "Invalid address".toList <+:
      "Invalid address length: decoded to 1 bytes, expected 32".toList :=
  ⟨(validate_address_spec "11111111111111111111111111111111").1.mpr
      ⟨by decide, by decide, by decide⟩,
   (validate_address_spec "2").2 _ (by rfl)⟩

end SolInspect
